import Mathlib

/-!
Verification of the Blender-SkipRender repository.

Shallow embedding of the change-detection and skip-scheduling core of the
repository (src/__init__.py, src/hash.py, src/render.py) into Lean.

Modelling conventions:
* Python floats are modelled as rationals; the tolerance 1e-8 becomes the
  exact rational 1/100000000.
* An animation curve (f-curve) is a function from frame number to value.
* A Python entity without animation_data or without an action is modelled by
  an empty curve list (both contribute nothing to any traversal).
* The frame cursor of the scene (scene.frame_current, mutated by
  scene.frame_set) is modelled by explicit state passing: functions that
  mutate the cursor return the updated scene.
* The file system is the set of paths holding an output file; paths are
  modelled structurally as (folder, frame number, extension) triples, which
  mirrors the injective formatting os.path.join(folder, f-string frame).
* Durations measured with time.monotonic around external calls are inputs of
  each step (StepCost); a copy failure (shutil.copyfile raising) is an input
  flag of the step.
* The string scene.sleek_eta holds str(datetime.timedelta(seconds
  round(eta_seconds))); the model stores the underlying eta_seconds value.
-/

namespace SkipRender

/-- An animation curve: evaluation at a frame, as in fcurve.evaluate. -/
structure FCurve where
  eval : Int → ℚ

/-- A material: its own f-curves, plus an optional node tree with f-curves. -/
structure Material where
  name : String
  curves : List FCurve
  use_nodes : Bool
  node_tree : Option (List FCurve)

/-- A scene object: its f-curves, modifier f-curves, material slots and
transform channels (location, rotation_euler, scale). -/
structure Obj where
  name : String
  curves : List FCurve
  modifiers : List (List FCurve)
  material_slots : List (Option Material)
  location : ℚ × ℚ × ℚ
  rotation_euler : ℚ × ℚ × ℚ
  scale : ℚ × ℚ × ℚ

/-- The Blender scene state consumed by the addon: object collection, frame
range, the shared frame cursor, and the custom scene properties registered by
the addon (scene.i, sleek_progress, sleek_running, sleek_eta) together with
the render output path and image format. -/
structure Scene where
  name : String
  objects : List Obj
  frame_start : Int
  frame_end : Int
  frame_current : Int
  i : Int
  sleek_progress : ℚ
  sleek_running : Bool
  sleek_eta : ℚ
  render_filepath : Option (String × Int × String)
  file_format : String

/-- scene.frame_set f: move the shared frame cursor. -/
def frame_set (scene : Scene) (f : Int) : Scene :=
  { scene with frame_current := f }

/-- Whether an entity is an object or a material, as in the kind argument of
the local helper in detect_changing. -/
inductive EntityKind where
  | object
  | material
deriving DecidableEq

/-- The flattened sequence of process(value, name, kind) calls that
detect_changing makes for one scene object: the object itself, its
modifiers (under the object name), each slot material, and the node tree of
a material when use_nodes is set. -/
def obj_calls (o : Obj) : List (List FCurve × String × EntityKind) :=
  ((o.curves, o.name, EntityKind.object)
      :: o.modifiers.map (fun m => (m, o.name, EntityKind.object)))
    ++ o.material_slots.flatMap (fun slot =>
        match slot with
        | none => []
        | some mat =>
          (mat.curves, mat.name, EntityKind.material)
            :: (if mat.use_nodes then
                  match mat.node_tree with
                  | some nt => [(nt, mat.name, EntityKind.material)]
                  | none => []
                else []))

/-- All process(value, name, kind) calls for a scene, in traversal order. -/
def entity_calls (scene : Scene) : List (List FCurve × String × EntityKind) :=
  scene.objects.flatMap obj_calls

/-- The tolerance 1e-8 used by detect_changing. -/
def tol : ℚ := 1 / 100000000

/-- Whether some f-curve of the entity differs beyond the tolerance between
the two frames (the loop with break in the local process helper). -/
def entity_changed (curves : List FCurve) (frame prev_frame : Int) : Bool :=
  curves.any (fun fcurve => decide (tol < |fcurve.eval frame - fcurve.eval prev_frame|))

/-- detect_changing: the sets of object names and material names whose
animation changes between max(frame-1, frame_start) and the current frame. -/
def detect_changing (scene : Scene) : Finset String × Finset String :=
  let frame := scene.frame_current
  let prev_frame := max (frame - 1) scene.frame_start
  (entity_calls scene).foldl
    (fun acc call =>
      if entity_changed call.1 frame prev_frame then
        match call.2.2 with
        | EntityKind.object => (insert call.2.1 acc.1, acc.2)
        | EntityKind.material => (acc.1, insert call.2.1 acc.2)
      else acc)
    (∅, ∅)

/-- Integer ranges: the list a, a+1, ..., with n elements. -/
def intRangeAux : Nat → Int → List Int
  | 0, _ => []
  | n + 1, a => a :: intRangeAux n (a + 1)

/-- The list a, a+1, ..., b (empty when b < a), as Python range(a, b+1). -/
def intRange (a b : Int) : List Int :=
  intRangeAux (b + 1 - a).toNat a

/-- The frame sweep inside simulate_skip_frames: set the cursor to each
frame, detect changes, compare with the previous signature, and thread the
mutated scene. Returns the appended booleans and the final scene. -/
def sweepSim : Scene → (Finset String × Finset String) → List Int → List Bool × Scene
  | s, _, [] => ([], s)
  | s, prev, f :: rest =>
    let s1 := frame_set s f
    let cur := detect_changing s1
    let r := sweepSim s1 cur rest
    (decide (cur = prev) :: r.1, r.2)

/-- simulate_skip_frames: dry pass over the whole frame range producing
(skip_list, total_skip, total_render), restoring the frame cursor, with an
early return of an empty plan on an invalid range. -/
def simulate_skip_frames (scene : Scene) : (List Bool × Int × Int) × Scene :=
  let original_frame := scene.frame_current
  let start := scene.frame_start
  if start > scene.frame_end then (([], 0, 0), scene)
  else
    let scene1 := frame_set scene start
    let prev := detect_changing scene1
    let r := sweepSim scene1 prev (intRange (start + 1) scene.frame_end)
    let skip_list := false :: r.1
    let scene2 := frame_set r.2 original_frame
    let total_skip : Int := (skip_list.map (fun b => if b then (1 : Int) else 0)).sum
    let total_render : Int := (scene.frame_end - start + 1) - total_skip
    ((skip_list, total_skip, total_render), scene2)

/-- An output file path within a run: folder, frame number, extension.
Models os.path.join(frame_folder, f-string of the zero padded frame number
and extension); the formatting is injective, which the structural
representation captures. -/
structure OutPath where
  folder : String
  frame : Int
  ext : String
deriving DecidableEq

/-- The set of paths currently holding an output file (the sink). -/
structure FS where
  files : Finset OutPath

/-- The global _process_state dictionary. The prev_changed fields model
dict.get with a default of the empty set: the keys are absent initially and
are never deleted, so a field holding the empty set is equivalent. -/
structure PState where
  stop : Bool
  skip_list : List Bool
  total_skip : Int
  total_render : Int
  skip_time_total : ℚ
  skip_count_done : Int
  render_time_total : ℚ
  render_count_done : Int
  last_rendered_path : Option OutPath
  frame_folder : Option String
  extension : Option String
  ema_render_time : ℚ
  prev_changed_objects : Finset String
  prev_changed_materials : Finset String

/-- The module level initial value of _process_state. -/
def init_process_state : PState :=
  { stop := false
    skip_list := []
    total_skip := 0
    total_render := 0
    skip_time_total := 0
    skip_count_done := 0
    render_time_total := 0
    render_count_done := 0
    last_rendered_path := none
    frame_folder := none
    extension := none
    ema_render_time := 0
    prev_changed_objects := ∅
    prev_changed_materials := ∅ }

/-- The externally measured quantities of one scheduler step: the durations
returned by the monotonic clock around the render call, the save block and
the copy call, plus whether shutil.copyfile raises for this frame. -/
structure StepCost where
  render_cost : ℚ
  save_cost : ℚ
  copy_cost : ℚ
  copy_fails : Bool

/-- Which path a step took for its frame. -/
inductive FrameAction where
  | copied
  | rendered
  | noop
deriving DecidableEq

/-- The outcome of one call of the timer callback process: either the run is
over (the callback returns None after clearing sleek_running) or one frame
was handled and the callback asks to be rescheduled. -/
inductive ProcessResult where
  | halt (scene : Scene)
  | step (action : FrameAction) (scene : Scene) (st : PState) (fs : FS)

/-- The output path of the current frame,
os.path.join(frame_folder, f-string frame and extension). -/
def current_path (scene : Scene) (st : PState) : OutPath :=
  ⟨st.frame_folder.getD "", scene.i, st.extension.getD ""⟩

/-- The scene after the top of the step: frame_set(scene.i) and the
assignment of scene.render.filepath. -/
def prepared_scene (scene : Scene) (st : PState) : Scene :=
  { frame_set scene scene.i with
      render_filepath := some ((current_path scene st).folder,
        (current_path scene st).frame, (current_path scene st).ext) }

/-- The payload of one branch of the step body: the action taken, the
render_duration and save_duration local variables (initialized to 0.0 and
overwritten only on a render), and the updated state and sink. -/
structure BranchOut where
  action : FrameAction
  render_duration : ℚ
  save_duration : ℚ
  st : PState
  fs : FS

/-- The render block of process (executed verbatim on the not duplicate
path, on the no previous output path and on the copy failure fallback):
render the frame to the current path, accumulate the elapsed time under the
render accumulators and remember the path as last_rendered_path. -/
def render_branch (st : PState) (fs : FS) (c : StepCost) (current_filepath : OutPath) :
    BranchOut :=
  BranchOut.mk FrameAction.rendered c.render_cost c.save_cost
    { st with
        render_time_total := st.render_time_total + (c.render_cost + c.save_cost)
        render_count_done := st.render_count_done + 1
        last_rendered_path := some current_filepath }
    ⟨insert current_filepath fs.files⟩

/-- The successful copy block: duplicate the last rendered file to the
current path and accumulate the elapsed time under the skip accumulators. -/
def copy_branch (st : PState) (fs : FS) (c : StepCost) (current_filepath : OutPath) :
    BranchOut :=
  BranchOut.mk FrameAction.copied 0 0
    { st with
        skip_time_total := st.skip_time_total + c.copy_cost
        skip_count_done := st.skip_count_done + 1 }
    ⟨insert current_filepath fs.files⟩

/-- The duplicate path of the step: copy when a previous output exists on
the sink and differs from the current path, falling back to a render when
the copy raises; render when no valid previous output exists; do nothing
when the current path is the previous output itself. -/
def duplicate_branch (st : PState) (fs : FS) (c : StepCost) (current_filepath : OutPath) :
    BranchOut :=
  match st.last_rendered_path with
  | some lp =>
    if lp ∈ fs.files then
      if current_filepath ≠ lp then
        if c.copy_fails then render_branch st fs c current_filepath
        else copy_branch st fs c current_filepath
      else BranchOut.mk FrameAction.noop 0 0 st fs
    else render_branch st fs c current_filepath
  | none => render_branch st fs c current_filepath

/-- The state updates after the branch: the unconditional EMA update with
weight alpha = 0.3 on render_duration + save_duration (both zero unless the
frame was rendered), then the update of the previous signature. -/
def final_pstate (b : BranchOut) (cm : Finset String × Finset String) : PState :=
  let st := b.st
  let alpha : ℚ := 3 / 10
  let st := { st with ema_render_time :=
    alpha * (b.render_duration + b.save_duration) + (1 - alpha) * st.ema_render_time }
  { st with prev_changed_objects := cm.1, prev_changed_materials := cm.2 }

/-- The ETA computation of the step: remaining counts times the average
costs, with only the divisor of the copy average guarded. -/
def eta_seconds (st : PState) : ℚ :=
  let render_left : Int := st.total_render - st.render_count_done
  let skip_left : Int := st.total_skip - st.skip_count_done
  let avg_skip_time : ℚ :=
    if 0 < st.skip_count_done then st.skip_time_total / (st.skip_count_done : ℚ) else 0
  let avg_render_time := st.ema_render_time
  (render_left : ℚ) * avg_render_time + (skip_left : ℚ) * avg_skip_time

/-- The scene updates at the end of the step: record the ETA, advance the
frame index and recompute the progress fraction (clamped into the unit
interval by the FloatProperty bounds). -/
def final_scene (scene : Scene) (st : PState) : Scene :=
  let scene := { scene with sleek_eta := eta_seconds st }
  let scene := { scene with i := scene.i + 1 }
  let total_frames : Int := scene.frame_end - scene.frame_start + 1
  { scene with sleek_progress :=
    (if 0 < total_frames then
      min 1 (max 0 (((scene.i - scene.frame_start : Int) : ℚ) / (total_frames : ℚ)))
    else 0) }

/-- The tail of the step, common to every branch. -/
def finish_step (scene : Scene) (b : BranchOut) (cm : Finset String × Finset String) :
    ProcessResult :=
  ProcessResult.step b.action (final_scene scene (final_pstate b cm)) (final_pstate b cm) b.fs

/-- One call of the timer callback process: stop or exhausted range halts
the run, otherwise handle the frame scene.i and reschedule. -/
def process (scene : Scene) (st : PState) (fs : FS) (c : StepCost) : ProcessResult :=
  if st.stop = true ∨ scene.i > scene.frame_end then
    ProcessResult.halt { scene with sleek_running := false }
  else
    let scene1 := prepared_scene scene st
    let cm := detect_changing scene1
    if cm.1 = st.prev_changed_objects ∧ cm.2 = st.prev_changed_materials then
      finish_step scene1 (duplicate_branch st fs c (current_path scene st)) cm
    else
      finish_step scene1 (render_branch st fs c (current_path scene st)) cm

/-- Outcome of PROCESS_OT_Sleek.execute. -/
inductive ExecResult where
  | finished
  | cancelled
deriving DecidableEq

/-- The format to extension table of execute. -/
def formats (file_format : String) : Option String :=
  if file_format = "PNG" then some "png"
  else if file_format = "JPEG" then some "jpg"
  else if file_format = "BMP" then some "bmp"
  else if file_format = "TIFF" then some "tiff"
  else if file_format = "TARGA" then some "tga"
  else if file_format = "OPEN_EXR" then some "exr"
  else none

/-- The scene mutations at the top of execute: clear the progress fields,
mark the run as running and set the frame index to the range start. -/
def start_scene (scene : Scene) : Scene :=
  { scene with
    sleek_progress := 0
    sleek_running := true
    sleek_eta := 0
    i := scene.frame_start }

/-- PROCESS_OT_Sleek.execute: clear the stop flag and the progress fields,
set the frame index to the range start, fail when the addon preferences are
missing, otherwise run the dry pass to seed the plan, reset
last_rendered_path and the EMA, and fix the image format and output folder.
The directory creation has no observable effect on the modelled sink. -/
def execute (scene : Scene) (st : PState) (output_dir_pref : Option String) :
    Scene × PState × ExecResult :=
  let st := { st with stop := false }
  let scene := start_scene scene
  match output_dir_pref with
  | none => (scene, st, ExecResult.cancelled)
  | some pref_dir =>
    let output_dir := pref_dir ++ "/" ++ scene.name
    let sim := simulate_skip_frames scene
    let scene := sim.2
    let st := { st with
      skip_list := sim.1.1
      total_skip := sim.1.2.1
      total_render := sim.1.2.2
      last_rendered_path := none
      ema_render_time := 0 }
    let file_format := if (formats scene.file_format).isSome then scene.file_format else "PNG"
    let scene := { scene with file_format := file_format }
    let st := { st with
      extension := formats file_format
      frame_folder := some (output_dir ++ "/" ++ "images") }
    (scene, st, ExecResult.finished)

/-- Iterate the timer callback up to a given number of ticks, collecting the
action taken for each handled frame; stops early when the callback halts. -/
def run_steps : Nat → Scene → PState → FS → (Int → StepCost) →
    List FrameAction × Scene × PState × FS
  | 0, s, st, fs, _ => ([], s, st, fs)
  | Nat.succ n, s, st, fs, c =>
    match process s st fs (c s.i) with
    | ProcessResult.halt s2 => ([], s2, st, fs)
    | ProcessResult.step a s2 st2 fs2 =>
      let r := run_steps n s2 st2 fs2 c
      (a :: r.1, r.2)

/-- The plan entry true (a duplicate, skipped frame) corresponds to a copy,
false to a render. -/
def toAction (b : Bool) : FrameAction :=
  if b then FrameAction.copied else FrameAction.rendered

/-- Projection of a step outcome: the action taken, if any. -/
def resultAction : ProcessResult → Option FrameAction
  | ProcessResult.halt _ => none
  | ProcessResult.step a _ _ _ => some a

/-- Projection of a step outcome: the scene after the call. -/
def resultScene : ProcessResult → Scene
  | ProcessResult.halt s => s
  | ProcessResult.step _ s _ _ => s

/-- Projection of a step outcome: the state after a non halting call. -/
def resultPState : ProcessResult → Option PState
  | ProcessResult.halt _ => none
  | ProcessResult.step _ _ st _ => some st

/-- Projection of a step outcome: the sink after a non halting call. -/
def resultFS : ProcessResult → Option FS
  | ProcessResult.halt _ => none
  | ProcessResult.step _ _ _ fs => some fs

/-- A frame hash from src/hash.py: either the joined string of curve slopes
or, when the scene has no f-curves at all, the fallback string formatted
from every object transform. The two string formats cannot collide, which
the two constructors capture; within each format the encoding of the values
is injective, which the structural payload captures. -/
inductive HashVal where
  | fallback (transforms : List ((ℚ × ℚ × ℚ) × (ℚ × ℚ × ℚ) × (ℚ × ℚ × ℚ)))
  | slopes (vals : List ℚ)
deriving DecidableEq

/-- fallback_hash_frame: the location, rotation and scale of every object. -/
def fallback_hash_frame (scene : Scene) : HashVal :=
  HashVal.fallback (scene.objects.map (fun o => (o.location, o.rotation_euler, o.scale)))

/-- hash_frame: the slope of every f-curve of the scene at the current
frame (value at frame+1 minus value at frame), over the same entity
traversal as detect_changing; falls back to the transform hash when no
entity carries any f-curve. -/
def hash_frame (scene : Scene) : HashVal :=
  let frame := scene.frame_current
  let slopes := (entity_calls scene).flatMap
    (fun call => call.1.map (fun fcurve => fcurve.eval (frame + 1) - fcurve.eval frame))
  if slopes.length < 1 then fallback_hash_frame scene else HashVal.slopes slopes

/-- A raised exception of the modelled Python code. -/
inductive PyError where
  | zeroDivision
  | copyFailed
deriving DecidableEq

/-- The loop of render in src/render.py, threading the previous hash and
frame, the scene cursor and the sink; a copy from a missing source would
raise out of the run. -/
def render_loop : List Int → Option HashVal × Option Int → Scene → FS → String →
    Except PyError (Scene × FS)
  | [], _, s, fs, _ => Except.ok (s, fs)
  | i :: rest, prev, s, fs, temp =>
    let s := frame_set s i
    let current_path : OutPath := ⟨temp ++ "/images", i, "png"⟩
    let current_hash := hash_frame s
    if prev.1 ≠ some current_hash then
      render_loop rest (some current_hash, some i)
        { s with render_filepath := some (current_path.folder, current_path.frame, current_path.ext) }
        ⟨insert current_path fs.files⟩ temp
    else
      match prev.2 with
      | some pi =>
        if (⟨temp ++ "/images", pi, "png"⟩ : OutPath) ∈ fs.files then
          render_loop rest prev s ⟨insert current_path fs.files⟩ temp
        else Except.error PyError.copyFailed
      | none => Except.error PyError.copyFailed

/-- render from src/render.py: sweep the frames of
range(frame_start, frame_end), rendering a frame whose hash differs from
the previous one and copying the previous output otherwise. -/
def render (scene : Scene) (temp : String) (fs : FS) : Except PyError (Scene × FS) :=
  render_loop (intRange scene.frame_start (scene.frame_end - 1)) (none, none) scene fs temp

/-- The duplicate counting loop of ANALYZE_SCENE_OT_Sleek.execute,
threading the scene cursor. -/
def analyze_sweep : Scene → (Finset String × Finset String) → List Int → Int × Scene
  | s, _, [] => (0, s)
  | s, prev, f :: rest =>
    let s1 := frame_set s f
    let cur := detect_changing s1
    let r := analyze_sweep s1 cur rest
    ((if cur = prev then 1 else 0) + r.1, r.2)

/-- ANALYZE_SCENE_OT_Sleek.execute: count duplicate frames over the whole
range, restore the cursor, then report the duplicate count and percentage;
the percentage divides by total_frames - 1, which raises ZeroDivisionError
when the range holds a single frame. -/
def analyze_scene_execute (scene : Scene) : Scene × Except PyError (Int × ℚ) :=
  let start := scene.frame_start
  let total_frames : Int := scene.frame_end - start + 1
  let original_frame := scene.frame_current
  let scene1 := frame_set scene start
  let prev := detect_changing scene1
  let r := analyze_sweep scene1 prev (intRange (start + 1) scene.frame_end)
  let duplicates := r.1
  let scene2 := frame_set r.2 original_frame
  if total_frames - 1 = 0 then (scene2, Except.error PyError.zeroDivision)
  else (scene2, Except.ok (duplicates, ((duplicates : ℚ) / ((total_frames : ℚ) - 1)) * 100))

/-! Basic lemmas about the frame cursor and the dry pass. -/

theorem frame_set_frame_set (s : Scene) (a b : Int) :
    frame_set (frame_set s a) b = frame_set s b := rfl

theorem frame_set_current (s : Scene) : frame_set s s.frame_current = s := rfl

theorem sweepSim_snd_eq (frames : List Int) :
    ∀ (s : Scene) (prev : Finset String × Finset String),
      (sweepSim s prev frames).2 = frame_set s ((sweepSim s prev frames).2).frame_current := by
  induction frames with
  | nil => intro s prev; exact (frame_set_current s).symm
  | cons f rest ih =>
    intro s prev
    show (sweepSim (frame_set s f) (detect_changing (frame_set s f)) rest).2 = _
    rw [ih (frame_set s f) (detect_changing (frame_set s f))]
    rfl

theorem simulate_skip_frames_snd (s : Scene) : (simulate_skip_frames s).2 = s := by
  unfold simulate_skip_frames
  by_cases h : s.frame_start > s.frame_end
  · simp [h]
  · simp only [h, if_false]
    rw [sweepSim_snd_eq]
    exact frame_set_current s

/-- C9: simulate_skip_frames restores the scene frame cursor to its
original value on every exit path, and the early return for an invalid
range yields the empty plan with zero counts rather than an error. -/
theorem simulate_restores_frame (s : Scene) :
    ((simulate_skip_frames s).2).frame_current = s.frame_current ∧
    (s.frame_start > s.frame_end → (simulate_skip_frames s).1 = ([], 0, 0)) := by
  refine ⟨by rw [simulate_skip_frames_snd], fun h => ?_⟩
  simp [simulate_skip_frames, h]

/-- A scene with no objects and the given frame range and cursor. -/
def mkScene (a b cur : Int) : Scene :=
  { name := "Scene"
    objects := []
    frame_start := a
    frame_end := b
    frame_current := cur
    i := 0
    sleek_progress := 0
    sleek_running := false
    sleek_eta := 0
    render_filepath := none
    file_format := "PNG" }

/-- C9 witness: a concrete invalid range, cursor 7 restored, empty plan. -/
theorem simulate_restores_frame_witness :
    ((simulate_skip_frames (mkScene 5 3 7)).2).frame_current = (mkScene 5 3 7).frame_current ∧
    (simulate_skip_frames (mkScene 5 3 7)).1 = ([], 0, 0) :=
  ⟨(simulate_restores_frame (mkScene 5 3 7)).1,
   (simulate_restores_frame (mkScene 5 3 7)).2 (by decide)⟩

/-- C8: the planner counts satisfy total_skip + total_render equal to the
frame count end - start + 1 on a valid range, with first entry false, and
the invalid range yields zero counts and an empty list. -/
theorem plan_count_invariant (s : Scene) :
    (s.frame_start ≤ s.frame_end →
      (simulate_skip_frames s).1.2.1 + (simulate_skip_frames s).1.2.2
          = s.frame_end - s.frame_start + 1 ∧
        (simulate_skip_frames s).1.1.head? = some false) ∧
    (s.frame_start > s.frame_end →
      (simulate_skip_frames s).1.2.1 = 0 ∧ (simulate_skip_frames s).1.2.2 = 0 ∧
        (simulate_skip_frames s).1.1 = []) := by
  constructor
  · intro h
    have h2 : ¬ s.frame_start > s.frame_end := not_lt.2 h
    simp only [simulate_skip_frames, h2, if_false]
    constructor
    · ring
    · rfl
  · intro h
    simp [simulate_skip_frames, h]

/-- C8 witness: the counts add up to the frame count on a concrete valid
range and the first entry is false. -/
theorem plan_count_invariant_witness :
    (simulate_skip_frames (mkScene 1 3 1)).1.2.1 + (simulate_skip_frames (mkScene 1 3 1)).1.2.2
        = (mkScene 1 3 1).frame_end - (mkScene 1 3 1).frame_start + 1 ∧
      (simulate_skip_frames (mkScene 1 3 1)).1.1.head? = some false :=
  (plan_count_invariant (mkScene 1 3 1)).1 (by decide)

/-! The concrete scenario of C2: one entity with one animation curve whose
value is constant on the frames 1 to 3 and increases linearly on 3 to 5. -/

/-- The animation curve of the C2 scenario. -/
def c2Curve : FCurve :=
  ⟨fun t => if t ≤ 3 then 0 else (t : ℚ) - 3⟩

/-- The single animated entity of the C2 scenario. -/
def c2Obj : Obj :=
  { name := "Cube"
    curves := [c2Curve]
    modifiers := []
    material_slots := []
    location := (0, 0, 0)
    rotation_euler := (0, 0, 0)
    scale := (1, 1, 1) }

/-- The C2 scenario scene: range 1 to 5. -/
def c2Scene : Scene :=
  { mkScene 1 5 1 with objects := [c2Obj] }

theorem c2_detect_static (k : Int) (hk : k ≤ 3) (hk1 : 1 ≤ k) :
    detect_changing (frame_set c2Scene k) = (∅, ∅) := by
  have h1 : ¬ tol < |c2Curve.eval k - c2Curve.eval (max (k - 1) 1)| := by
    have hmax : max (k - 1) 1 ≤ 3 := by omega
    simp only [c2Curve]
    rw [if_pos hk, if_pos hmax]
    norm_num [tol]
  simp [detect_changing, entity_calls, obj_calls, c2Scene, mkScene, c2Obj, frame_set,
    entity_changed, h1]

theorem c2_detect_moving (k : Int) (hk : 4 ≤ k) (hk5 : k ≤ 5) :
    detect_changing (frame_set c2Scene k) = ({"Cube"}, ∅) := by
  have h1 : tol < |c2Curve.eval k - c2Curve.eval (max (k - 1) 1)| := by
    have hmax : max (k - 1) 1 = k - 1 := by omega
    have hk3 : ¬ k ≤ 3 := by omega
    simp only [c2Curve, hmax]
    rw [if_neg hk3]
    by_cases h4 : k = 4
    · subst h4; norm_num [tol]
    · have : ¬ k - 1 ≤ 3 := by omega
      rw [if_neg this]
      have : (k : ℚ) - 3 - ((k : ℚ) - 1 - 3) = 1 := by ring
      rw [show ((k : Int) - 1 : Int) = k - 1 from rfl]
      push_cast
      rw [this]
      norm_num [tol]
  simp [detect_changing, entity_calls, obj_calls, c2Scene, mkScene, c2Obj, frame_set,
    entity_changed, h1]

theorem c2_plan_eval :
    (simulate_skip_frames c2Scene).1 = ([false, true, true, false, true], 3, 2) := by
  have e1 := c2_detect_static 1 (by omega) (by omega)
  have e2 := c2_detect_static 2 (by omega) (by omega)
  have e3 := c2_detect_static 3 (by omega) (by omega)
  have e4 := c2_detect_moving 4 (by omega) (by omega)
  have e5 := c2_detect_moving 5 (by omega) (by omega)
  have hrange : intRange 2 5 = [2, 3, 4, 5] := by decide
  have hfs : c2Scene.frame_start = 1 := rfl
  have hfe : c2Scene.frame_end = 5 := rfl
  simp only [simulate_skip_frames, hfs, hfe]
  norm_num [hrange, sweepSim, frame_set_frame_set, e1, e2, e3, e4, e5]

/-- C2 counterexample: on the stated scenario the planner does not return
the skip list claimed by the specification; the code returns a plan whose
last entry is a skip (the change signature of frame 5 equals that of frame
4, both being the singleton set of the entity name). -/
theorem concrete_scenario_plan_cex :
    (simulate_skip_frames c2Scene).1 ≠ ([false, true, true, false, false], 2, 3) := by
  rw [c2_plan_eval]
  decide

/-- C2 amended: the planner returns skip_list
[false, true, true, false, true] with total_skip 3 and total_render 2 on
the stated scenario: frame 5 is also marked duplicate because its set of
changing entities equals that of frame 4. -/
theorem concrete_scenario_plan :
    (simulate_skip_frames c2Scene).1 = ([false, true, true, false, true], 3, 2) :=
  c2_plan_eval

/-- C10: on a single frame range the full scene analysis operator raises
ZeroDivisionError from the unguarded division by total_frames - 1. -/
theorem analyze_scene_div_by_zero (s : Scene) (h : s.frame_start = s.frame_end) :
    (analyze_scene_execute s).2 = Except.error PyError.zeroDivision := by
  unfold analyze_scene_execute
  have hz : s.frame_end - s.frame_start + 1 - 1 = 0 := by omega
  simp only [hz, if_pos]

/-- C10 witness: the concrete single frame range 4 to 4 raises. -/
theorem analyze_scene_div_by_zero_witness :
    (analyze_scene_execute (mkScene 4 4 4)).2 = Except.error PyError.zeroDivision :=
  analyze_scene_div_by_zero (mkScene 4 4 4) (by decide)

/-! Characterization of one scheduler step. -/

theorem process_halt_eq (scene : Scene) (st : PState) (fs : FS) (c : StepCost)
    (h : st.stop = true ∨ scene.i > scene.frame_end) :
    process scene st fs c = ProcessResult.halt { scene with sleek_running := false } := by
  unfold process
  rw [if_pos h]

theorem process_step_eq (scene : Scene) (st : PState) (fs : FS) (c : StepCost)
    (h1 : st.stop = false) (h2 : scene.i ≤ scene.frame_end) :
    process scene st fs c =
      (if (detect_changing (prepared_scene scene st)).1 = st.prev_changed_objects ∧
          (detect_changing (prepared_scene scene st)).2 = st.prev_changed_materials then
        finish_step (prepared_scene scene st)
          (duplicate_branch st fs c (current_path scene st))
          (detect_changing (prepared_scene scene st))
      else
        finish_step (prepared_scene scene st)
          (render_branch st fs c (current_path scene st))
          (detect_changing (prepared_scene scene st))) := by
  unfold process
  rw [if_neg (not_or.mpr ⟨by simp [h1], not_lt.2 h2⟩)]

theorem process_step_cases (scene : Scene) (st : PState) (fs : FS) (c : StepCost)
    (a : FrameAction) (s2 : Scene) (st2 : PState) (fs2 : FS)
    (h : process scene st fs c = ProcessResult.step a s2 st2 fs2) :
    ∃ b : BranchOut,
      (b = render_branch st fs c (current_path scene st) ∨
       b = copy_branch st fs c (current_path scene st) ∨
       b = BranchOut.mk FrameAction.noop 0 0 st fs) ∧
      a = b.action ∧
      st2 = final_pstate b (detect_changing (prepared_scene scene st)) ∧
      fs2 = b.fs ∧
      s2 = final_scene (prepared_scene scene st) st2 := by
  by_cases hh : st.stop = true ∨ scene.i > scene.frame_end
  · rw [process_halt_eq scene st fs c hh] at h
    exact absurd h (by simp)
  · push_neg at hh
    have h1 : st.stop = false := by
      cases hb : st.stop
      · rfl
      · exact absurd hb hh.1
    rw [process_step_eq scene st fs c h1 hh.2] at h
    have finish (b : BranchOut)
        (hb : finish_step (prepared_scene scene st) b
            (detect_changing (prepared_scene scene st)) = ProcessResult.step a s2 st2 fs2)
        (hmem : b = render_branch st fs c (current_path scene st) ∨
          b = copy_branch st fs c (current_path scene st) ∨
          b = BranchOut.mk FrameAction.noop 0 0 st fs) :
        ∃ b : BranchOut,
          (b = render_branch st fs c (current_path scene st) ∨
           b = copy_branch st fs c (current_path scene st) ∨
           b = BranchOut.mk FrameAction.noop 0 0 st fs) ∧
          a = b.action ∧
          st2 = final_pstate b (detect_changing (prepared_scene scene st)) ∧
          fs2 = b.fs ∧
          s2 = final_scene (prepared_scene scene st) st2 := by
      simp only [finish_step, ProcessResult.step.injEq] at hb
      obtain ⟨ha, hs, hst, hfs⟩ := hb
      exact ⟨b, hmem, ha.symm, hst.symm, hfs.symm, by rw [← hs, hst]⟩
    by_cases hdup : (detect_changing (prepared_scene scene st)).1 = st.prev_changed_objects ∧
        (detect_changing (prepared_scene scene st)).2 = st.prev_changed_materials
    · rw [if_pos hdup] at h
      cases hl : st.last_rendered_path with
      | none =>
        simp only [duplicate_branch, hl] at h
        exact finish _ h (Or.inl rfl)
      | some lp =>
        simp only [duplicate_branch, hl] at h
        by_cases hmem : lp ∈ fs.files
        · rw [if_pos hmem] at h
          by_cases hne : current_path scene st ≠ lp
          · rw [if_pos hne] at h
            cases hcf : c.copy_fails
            · rw [hcf, if_neg Bool.false_ne_true] at h
              exact finish _ h (Or.inr (Or.inl rfl))
            · rw [hcf, if_pos rfl] at h
              exact finish _ h (Or.inl rfl)
          · rw [if_neg hne] at h
            exact finish _ h (Or.inr (Or.inr rfl))
        · rw [if_neg hmem] at h
          exact finish _ h (Or.inl rfl)
    · rw [if_neg hdup] at h
      exact finish _ h (Or.inl rfl)

/-- C3 amended: the EMA is updated on every non halting step, not only on
render path steps: the step always recomputes ema_render_time as
alpha * (render_duration + save_duration) + (1 - alpha) * ema_render_time
with alpha = 0.3, where the durations are the render path costs on a render
and zero on a successful copy, so a successful copy multiplies the EMA by
0.7 instead of leaving it unchanged; the copy cost itself goes only into
the separate copy accumulators. -/
theorem ema_update_characterization (scene : Scene) (st : PState) (fs : FS) (c : StepCost)
    (a : FrameAction) (s2 : Scene) (st2 : PState) (fs2 : FS)
    (h : process scene st fs c = ProcessResult.step a s2 st2 fs2) :
    st2.ema_render_time =
      3 / 10 * (if a = FrameAction.rendered then c.render_cost + c.save_cost else 0)
        + (1 - 3 / 10) * st.ema_render_time ∧
    (a = FrameAction.copied →
      st2.skip_time_total = st.skip_time_total + c.copy_cost ∧
      st2.skip_count_done = st.skip_count_done + 1 ∧
      st2.render_time_total = st.render_time_total ∧
      st2.render_count_done = st.render_count_done ∧
      st2.ema_render_time = (1 - 3 / 10) * st.ema_render_time) := by
  obtain ⟨b, hb, ha, hst, hfs, hs⟩ := process_step_cases scene st fs c a s2 st2 fs2 h
  rcases hb with hb | hb | hb <;> subst hb <;> subst ha <;> subst hst <;>
    simp [final_pstate, render_branch, copy_branch]

/-- C3 witness for the amended characterization: a concrete successful copy
step whose EMA decays from 1 to 7/10 while the copy accumulators receive
the copy cost. -/
def c3St : PState :=
  { init_process_state with
      frame_folder := some "F"
      extension := some "png"
      last_rendered_path := some ⟨"F", 0, "png"⟩
      ema_render_time := 1 }

def c3Scene : Scene := { mkScene 1 2 1 with i := 1 }

def c3Fs : FS := ⟨{⟨"F", 0, "png"⟩}⟩

def c3Cost : StepCost := ⟨10, 0, 2, false⟩

theorem result_eta (r : ProcessResult) (a : FrameAction) (h : resultAction r = some a) :
    r = ProcessResult.step a (resultScene r) ((resultPState r).getD init_process_state)
      ((resultFS r).getD ⟨∅⟩) := by
  cases r with
  | halt s => simp [resultAction] at h
  | step a2 s st fs =>
    simp only [resultAction, Option.some.injEq] at h
    subst h
    rfl

/-- C3 counterexample: a concrete step that takes the successful copy path
(action copied) changes ema_render_time from 1 to 7/10, so the EMA is not
left unchanged on a successful copy step. -/
theorem ema_unchanged_on_copy_cex :
    resultAction (process c3Scene c3St c3Fs c3Cost) = some FrameAction.copied ∧
    c3St.ema_render_time = 1 ∧
    (resultPState (process c3Scene c3St c3Fs c3Cost)).map PState.ema_render_time
        = some (7 / 10) ∧
    (7 / 10 : ℚ) ≠ 1 := by
  refine ⟨by decide, rfl, ?_, by norm_num⟩
  rw [process_step_eq c3Scene c3St c3Fs c3Cost rfl (by decide)]
  rw [if_pos (by decide)]
  simp only [duplicate_branch, c3St, finish_step]
  rw [if_pos (by decide), if_pos (by decide)]
  norm_num [copy_branch, final_pstate, resultPState, init_process_state, c3Cost]

def c3Step : ProcessResult := process c3Scene c3St c3Fs c3Cost

def c3s2 : Scene := resultScene c3Step

def c3st2 : PState := (resultPState c3Step).getD init_process_state

def c3fs2 : FS := (resultFS c3Step).getD ⟨∅⟩

/-- C3 witness: the amended EMA characterization applied to the concrete
successful copy step. -/
theorem ema_update_characterization_witness :
    c3st2.ema_render_time =
      3 / 10 * (if FrameAction.copied = FrameAction.rendered then
          c3Cost.render_cost + c3Cost.save_cost else 0)
        + (1 - 3 / 10) * c3St.ema_render_time ∧
    (FrameAction.copied = FrameAction.copied →
      c3st2.skip_time_total = c3St.skip_time_total + c3Cost.copy_cost ∧
      c3st2.skip_count_done = c3St.skip_count_done + 1 ∧
      c3st2.render_time_total = c3St.render_time_total ∧
      c3st2.render_count_done = c3St.render_count_done ∧
      c3st2.ema_render_time = (1 - 3 / 10) * c3St.ema_render_time) :=
  ema_update_characterization c3Scene c3St c3Fs c3Cost FrameAction.copied c3s2 c3st2 c3fs2
    (result_eta c3Step FrameAction.copied (by decide))

/-- C4 amended: the ETA recorded by every step is the unclamped expression
(total_render - render_count_done) * ema_render_time
+ (total_skip - skip_count_done) * avg_copy_time over the updated state;
the remaining counts are not clamped to zero (only the divisor of the copy
average is guarded), so the ETA is negative whenever the done counts exceed
the planned counts with positive averages. -/
theorem eta_unclamped (scene : Scene) (st : PState) (fs : FS) (c : StepCost)
    (a : FrameAction) (s2 : Scene) (st2 : PState) (fs2 : FS)
    (h : process scene st fs c = ProcessResult.step a s2 st2 fs2) :
    s2.sleek_eta =
      ((st2.total_render - st2.render_count_done : Int) : ℚ) * st2.ema_render_time
        + ((st2.total_skip - st2.skip_count_done : Int) : ℚ) *
          (if 0 < st2.skip_count_done then st2.skip_time_total / (st2.skip_count_done : ℚ)
           else 0) := by
  obtain ⟨b, hb, ha, hst, hfs, hs⟩ := process_step_cases scene st fs c a s2 st2 fs2 h
  subst hs
  simp [final_scene, eta_seconds]

/-- C4 witness: the unclamped ETA expression holds for the concrete copy
step of the C3 scenario. -/
theorem eta_unclamped_witness :
    c3s2.sleek_eta =
      ((c3st2.total_render - c3st2.render_count_done : Int) : ℚ) * c3st2.ema_render_time
        + ((c3st2.total_skip - c3st2.skip_count_done : Int) : ℚ) *
          (if 0 < c3st2.skip_count_done then c3st2.skip_time_total / (c3st2.skip_count_done : ℚ)
           else 0) :=
  eta_unclamped c3Scene c3St c3Fs c3Cost FrameAction.copied c3s2 c3st2 c3fs2
    (result_eta c3Step FrameAction.copied (by decide))

/-! The C4 counterexample: a reachable state with a negative ETA. The user
starts a run over the single frame range 1 to 1 of a static scene, lets it
complete (one rendered frame), then starts a second run of the same scene.
The second execute reseeds total_render to 1 but does not reset
render_count_done, so the first step of the second run computes
render_left = 1 - 2 = -1 and a negative ETA. -/

def c4Costs : Int → StepCost := fun _ => ⟨10, 0, 1, false⟩

def c4Exec1 : Scene × PState × ExecResult :=
  execute (mkScene 1 1 1) init_process_state (some "out")

def c4Run1 : List FrameAction × Scene × PState × FS :=
  run_steps 2 c4Exec1.1 c4Exec1.2.1 ⟨∅⟩ c4Costs

def c4Exec2 : Scene × PState × ExecResult :=
  execute c4Run1.2.1 c4Run1.2.2.1 (some "out")

def c4Run2 : List FrameAction × Scene × PState × FS :=
  run_steps 1 c4Exec2.1 c4Exec2.2.1 c4Run1.2.2.2 c4Costs

/-- C4 counterexample: after the run, the second execute and one step, the
recorded ETA is -3, which is negative, refuting the claim that every step
produces a nonnegative ETA on reachable accumulator states. -/
theorem eta_negative_cex :
    c4Exec2.2.2 = ExecResult.finished ∧
    c4Run2.1 = [FrameAction.rendered] ∧
    c4Run2.2.1.sleek_eta = -3 ∧
    c4Run2.2.1.sleek_eta < 0 := by
  norm_num [c4Run2, c4Run1, c4Exec1, c4Exec2, c4Costs, run_steps, process, execute,
    start_scene, simulate_skip_frames, sweepSim, intRange, intRangeAux, detect_changing,
    entity_calls, mkScene, frame_set, prepared_scene, current_path, duplicate_branch,
    render_branch, copy_branch, finish_step, final_pstate, final_scene, eta_seconds, formats,
    init_process_state]

/-- C5: when the step takes the duplicate path with a valid previous output
and the copy fails, the step falls back to rendering the same frame: the
output file appears at the expected current path, the elapsed cost goes to
the render accumulators, the copy accumulators are untouched, and the step
does not halt or fail the run (it reschedules with action rendered). -/
theorem copy_failure_fallback (scene : Scene) (st : PState) (fs : FS) (c : StepCost)
    (lp : OutPath)
    (h1 : st.stop = false) (h2 : scene.i ≤ scene.frame_end)
    (hdup : (detect_changing (prepared_scene scene st)).1 = st.prev_changed_objects ∧
      (detect_changing (prepared_scene scene st)).2 = st.prev_changed_materials)
    (hlast : st.last_rendered_path = some lp)
    (hmem : lp ∈ fs.files)
    (hne : current_path scene st ≠ lp)
    (hcf : c.copy_fails = true) :
    resultAction (process scene st fs c) = some FrameAction.rendered ∧
    resultFS (process scene st fs c) = some ⟨insert (current_path scene st) fs.files⟩ ∧
    (resultPState (process scene st fs c)).map PState.render_count_done
        = some (st.render_count_done + 1) ∧
    (resultPState (process scene st fs c)).map PState.render_time_total
        = some (st.render_time_total + (c.render_cost + c.save_cost)) ∧
    (resultPState (process scene st fs c)).map PState.skip_count_done
        = some st.skip_count_done ∧
    (resultPState (process scene st fs c)).map PState.skip_time_total
        = some st.skip_time_total ∧
    (resultPState (process scene st fs c)).map PState.last_rendered_path
        = some (some (current_path scene st)) := by
  rw [process_step_eq scene st fs c h1 h2, if_pos hdup]
  simp only [duplicate_branch, hlast]
  rw [if_pos hmem, if_pos hne, hcf, if_pos rfl]
  simp [finish_step, render_branch, final_pstate, resultAction, resultFS, resultPState]

def c5Cost : StepCost := ⟨10, 1, 2, true⟩

/-- C5 witness: the fallback on a concrete failing copy step. -/
theorem copy_failure_fallback_witness :
    resultAction (process c3Scene c3St c3Fs c5Cost) = some FrameAction.rendered ∧
    resultFS (process c3Scene c3St c3Fs c5Cost)
        = some ⟨insert (current_path c3Scene c3St) c3Fs.files⟩ ∧
    (resultPState (process c3Scene c3St c3Fs c5Cost)).map PState.render_count_done
        = some (c3St.render_count_done + 1) ∧
    (resultPState (process c3Scene c3St c3Fs c5Cost)).map PState.render_time_total
        = some (c3St.render_time_total + (c5Cost.render_cost + c5Cost.save_cost)) ∧
    (resultPState (process c3Scene c3St c3Fs c5Cost)).map PState.skip_count_done
        = some c3St.skip_count_done ∧
    (resultPState (process c3Scene c3St c3Fs c5Cost)).map PState.skip_time_total
        = some c3St.skip_time_total ∧
    (resultPState (process c3Scene c3St c3Fs c5Cost)).map PState.last_rendered_path
        = some (some (current_path c3Scene c3St)) :=
  copy_failure_fallback c3Scene c3St c3Fs c5Cost ⟨"F", 0, "png"⟩ rfl (by decide)
    ⟨by decide, by decide⟩ rfl (by decide) (by decide) rfl

/-- C6 amended: a successful start (PROCESS_OT_Sleek.execute returning
FINISHED) clears the stop flag and resets last_rendered_path and
ema_render_time to their initial values and sets the frame index to the
range start, but it does not reset the four timing accumulators
skip_time_total, skip_count_done, render_time_total and render_count_done,
which keep the values of the previous run. -/
theorem execute_resets_partial (scene : Scene) (st : PState) (pref : Option String)
    (s2 : Scene) (st2 : PState)
    (h : execute scene st pref = (s2, st2, ExecResult.finished)) :
    st2.ema_render_time = 0 ∧
    st2.last_rendered_path = none ∧
    st2.stop = false ∧
    st2.skip_time_total = st.skip_time_total ∧
    st2.skip_count_done = st.skip_count_done ∧
    st2.render_time_total = st.render_time_total ∧
    st2.render_count_done = st.render_count_done ∧
    s2.i = scene.frame_start ∧
    s2.sleek_running = true := by
  cases pref with
  | none => simp [execute] at h
  | some d =>
    simp only [execute, Prod.mk.injEq] at h
    obtain ⟨hs, hst, -⟩ := h
    subst hs
    subst hst
    refine ⟨rfl, rfl, rfl, rfl, rfl, rfl, rfl, ?_, ?_⟩ <;>
      rw [simulate_skip_frames_snd] <;> rfl

def c6St : PState :=
  { init_process_state with
      skip_time_total := 3
      skip_count_done := 4
      render_time_total := 7
      render_count_done := 5 }

/-- C6 counterexample: a successful execute after a previous run leaves the
four timing accumulators at their old nonzero values instead of zero. -/
theorem execute_reset_cex :
    (execute (mkScene 1 2 1) c6St (some "out")).2.2 = ExecResult.finished ∧
    (execute (mkScene 1 2 1) c6St (some "out")).2.1.render_count_done = 5 ∧
    (execute (mkScene 1 2 1) c6St (some "out")).2.1.skip_count_done = 4 ∧
    (execute (mkScene 1 2 1) c6St (some "out")).2.1.render_time_total = 7 ∧
    (execute (mkScene 1 2 1) c6St (some "out")).2.1.skip_time_total = 3 :=
  ⟨rfl, rfl, rfl, rfl, rfl⟩

/-- C6 witness: the amended reset behavior at a concrete execute. -/
theorem execute_resets_partial_witness :
    (execute (mkScene 1 2 1) c6St (some "out")).2.1.ema_render_time = 0 ∧
    (execute (mkScene 1 2 1) c6St (some "out")).2.1.last_rendered_path = none ∧
    (execute (mkScene 1 2 1) c6St (some "out")).2.1.stop = false ∧
    (execute (mkScene 1 2 1) c6St (some "out")).2.1.skip_time_total = c6St.skip_time_total ∧
    (execute (mkScene 1 2 1) c6St (some "out")).2.1.skip_count_done = c6St.skip_count_done ∧
    (execute (mkScene 1 2 1) c6St (some "out")).2.1.render_time_total
        = c6St.render_time_total ∧
    (execute (mkScene 1 2 1) c6St (some "out")).2.1.render_count_done
        = c6St.render_count_done ∧
    (execute (mkScene 1 2 1) c6St (some "out")).1.i = (mkScene 1 2 1).frame_start ∧
    (execute (mkScene 1 2 1) c6St (some "out")).1.sleek_running = true :=
  execute_resets_partial (mkScene 1 2 1) c6St (some "out")
    (execute (mkScene 1 2 1) c6St (some "out")).1
    (execute (mkScene 1 2 1) c6St (some "out")).2.1 rfl

def c7Obj : Obj :=
  { name := "Cube"
    curves := []
    modifiers := []
    material_slots := []
    location := (0, 0, 0)
    rotation_euler := (0, 0, 0)
    scale := (1, 1, 1) }

def c7Scene : Scene := { mkScene 1 2 1 with objects := [c7Obj] }

/-- C7: the CLI render of src/render.py iterates
range(frame_start, frame_end), which excludes frame_end: on the concrete
range 1 to 2 the run succeeds but produces only the output of frame 1; no
file exists for frame 2, violating the inclusive range completeness the
specification requires (the addon scheduler, by contrast, loops while
scene.i <= frame_end). -/
theorem render_skips_last_frame :
    (render c7Scene "tmp" ⟨∅⟩).toOption.map (fun p => p.2.files)
        = some {⟨"tmp/images", 1, "png"⟩} ∧
    (⟨"tmp/images", 2, "png"⟩ : OutPath) ∉ ({⟨"tmp/images", 1, "png"⟩} : Finset OutPath) :=
  ⟨by decide, by decide⟩

/-! Infrastructure for the plan against run equivalence (C1). -/

theorem intRange_nil (a b : Int) (h : b < a) : intRange a b = [] := by
  unfold intRange
  have hz : (b + 1 - a).toNat = 0 := by omega
  rw [hz]
  rfl

theorem intRange_cons (a b : Int) (h : a ≤ b) :
    intRange a b = a :: intRange (a + 1) b := by
  unfold intRange
  have hs : (b + 1 - a).toNat = (b + 1 - (a + 1)).toNat + 1 := by omega
  rw [hs]
  rfl

theorem detect_changing_congr (s t : Scene) (h1 : s.objects = t.objects)
    (h2 : s.frame_current = t.frame_current) (h3 : s.frame_start = t.frame_start) :
    detect_changing s = detect_changing t := by
  unfold detect_changing entity_calls
  rw [h1, h2, h3]

theorem sweepSim_fst_congr (frames : List Int) :
    ∀ (prev : Finset String × Finset String) (s t : Scene),
      s.objects = t.objects → s.frame_start = t.frame_start →
      (sweepSim s prev frames).1 = (sweepSim t prev frames).1 := by
  induction frames with
  | nil => intro prev s t h1 h2; rfl
  | cons f rest ih =>
    intro prev s t h1 h2
    have hd : detect_changing (frame_set s f) = detect_changing (frame_set t f) :=
      detect_changing_congr _ _ h1 rfl h2
    simp only [sweepSim]
    rw [hd, ih (detect_changing (frame_set t f)) (frame_set s f) (frame_set t f) h1 h2]

theorem process_copy_eq (scene : Scene) (st : PState) (fs : FS) (c : StepCost) (lp : OutPath)
    (h1 : st.stop = false) (h2 : scene.i ≤ scene.frame_end)
    (hdup : (detect_changing (prepared_scene scene st)).1 = st.prev_changed_objects ∧
      (detect_changing (prepared_scene scene st)).2 = st.prev_changed_materials)
    (hlast : st.last_rendered_path = some lp)
    (hmem : lp ∈ fs.files)
    (hne : current_path scene st ≠ lp)
    (hcf : c.copy_fails = false) :
    process scene st fs c = ProcessResult.step FrameAction.copied
      (final_scene (prepared_scene scene st)
        (final_pstate (copy_branch st fs c (current_path scene st))
          (detect_changing (prepared_scene scene st))))
      (final_pstate (copy_branch st fs c (current_path scene st))
        (detect_changing (prepared_scene scene st)))
      (copy_branch st fs c (current_path scene st)).fs := by
  rw [process_step_eq scene st fs c h1 h2, if_pos hdup]
  simp only [duplicate_branch, hlast]
  rw [if_pos hmem, if_pos hne, hcf, if_neg Bool.false_ne_true]
  rfl

theorem process_render_of_not_dup (scene : Scene) (st : PState) (fs : FS) (c : StepCost)
    (h1 : st.stop = false) (h2 : scene.i ≤ scene.frame_end)
    (hdup : ¬ ((detect_changing (prepared_scene scene st)).1 = st.prev_changed_objects ∧
      (detect_changing (prepared_scene scene st)).2 = st.prev_changed_materials)) :
    process scene st fs c = ProcessResult.step FrameAction.rendered
      (final_scene (prepared_scene scene st)
        (final_pstate (render_branch st fs c (current_path scene st))
          (detect_changing (prepared_scene scene st))))
      (final_pstate (render_branch st fs c (current_path scene st))
        (detect_changing (prepared_scene scene st)))
      (render_branch st fs c (current_path scene st)).fs := by
  rw [process_step_eq scene st fs c h1 h2, if_neg hdup]
  rfl

theorem process_render_of_last_none (scene : Scene) (st : PState) (fs : FS) (c : StepCost)
    (h1 : st.stop = false) (h2 : scene.i ≤ scene.frame_end)
    (hlast : st.last_rendered_path = none) :
    process scene st fs c = ProcessResult.step FrameAction.rendered
      (final_scene (prepared_scene scene st)
        (final_pstate (render_branch st fs c (current_path scene st))
          (detect_changing (prepared_scene scene st))))
      (final_pstate (render_branch st fs c (current_path scene st))
        (detect_changing (prepared_scene scene st)))
      (render_branch st fs c (current_path scene st)).fs := by
  rw [process_step_eq scene st fs c h1 h2]
  by_cases hdup : (detect_changing (prepared_scene scene st)).1 = st.prev_changed_objects ∧
      (detect_changing (prepared_scene scene st)).2 = st.prev_changed_materials
  · rw [if_pos hdup]
    simp only [duplicate_branch, hlast]
    rfl
  · rw [if_neg hdup]
    rfl

/-- The loop invariant of the live run: once some frame has been rendered
(so last_rendered_path names an existing file of the run folder at an
earlier frame), with the stop flag clear and no copy failures, the actions
of the remaining steps are exactly the remaining dry pass entries computed
from the stored previous signature. -/
@[simp] theorem toAction_true : toAction true = FrameAction.copied := rfl

@[simp] theorem toAction_false : toAction false = FrameAction.rendered := rfl

theorem run_matches_plan (n : Nat) :
    ∀ (s : Scene) (st : PState) (fs : FS) (c : Int → StepCost) (lp : OutPath),
      n = (s.frame_end + 1 - s.i).toNat →
      st.stop = false →
      (∀ f, (c f).copy_fails = false) →
      st.last_rendered_path = some lp →
      lp.folder = st.frame_folder.getD "" →
      lp.ext = st.extension.getD "" →
      lp.frame < s.i →
      lp ∈ fs.files →
      (run_steps n s st fs c).1 =
        ((sweepSim s (st.prev_changed_objects, st.prev_changed_materials)
          (intRange s.i s.frame_end)).1).map toAction := by
  induction n with
  | zero =>
    intro s st fs c lp hn hstop hc hlast hfol hext hfr hmem
    have hlt : s.frame_end < s.i := by omega
    rw [intRange_nil _ _ hlt]
    simp [run_steps, sweepSim]
  | succ n ih =>
    intro s st fs c lp hn hstop hc hlast hfol hext hfr hmem
    have hile : s.i ≤ s.frame_end := by omega
    have hnotlp : current_path s st ≠ lp := by
      intro he
      have hfr2 : (current_path s st).frame = lp.frame := by rw [he]
      have : s.i = lp.frame := hfr2
      omega
    have hpre : detect_changing (prepared_scene s st) = detect_changing (frame_set s s.i) :=
      detect_changing_congr _ _ rfl rfl rfl
    rw [intRange_cons s.i s.frame_end hile]
    by_cases hdup : detect_changing (prepared_scene s st)
        = (st.prev_changed_objects, st.prev_changed_materials)
    · -- the step copies, matching a true plan entry
      have hdup2 : (detect_changing (prepared_scene s st)).1 = st.prev_changed_objects ∧
          (detect_changing (prepared_scene s st)).2 = st.prev_changed_materials :=
        ⟨congrArg Prod.fst hdup, congrArg Prod.snd hdup⟩
      have hproc := process_copy_eq s st fs (c s.i) lp hstop hile hdup2 hlast hmem hnotlp
        (hc s.i)
      have hih : (run_steps n
            (final_scene (prepared_scene s st)
              (final_pstate (copy_branch st fs (c s.i) (current_path s st))
                (detect_changing (prepared_scene s st))))
            (final_pstate (copy_branch st fs (c s.i) (current_path s st))
              (detect_changing (prepared_scene s st)))
            (copy_branch st fs (c s.i) (current_path s st)).fs c).1 =
          ((sweepSim
            (final_scene (prepared_scene s st)
              (final_pstate (copy_branch st fs (c s.i) (current_path s st))
                (detect_changing (prepared_scene s st))))
            (detect_changing (prepared_scene s st))
            (intRange (s.i + 1) s.frame_end)).1).map toAction :=
        ih _ _ _ c lp (show n = (s.frame_end + 1 - (s.i + 1)).toNat by omega) hstop hc
          hlast hfol hext (show lp.frame < s.i + 1 by omega)
          (Finset.mem_insert_of_mem hmem)
      simp only [run_steps, hproc]
      simp only [sweepSim, List.map_cons]
      rw [decide_eq_true (hpre.symm.trans hdup), toAction_true]
      refine congrArg (List.cons FrameAction.copied) ?_
      rw [hih, hpre]
      exact congrArg (List.map toAction) (sweepSim_fst_congr _ _ _ _ rfl rfl)
    · -- the step renders, matching a false plan entry
      have hdup2 : ¬ ((detect_changing (prepared_scene s st)).1 = st.prev_changed_objects ∧
          (detect_changing (prepared_scene s st)).2 = st.prev_changed_materials) := by
        intro hand
        exact hdup (Prod.ext hand.1 hand.2)
      have hproc := process_render_of_not_dup s st fs (c s.i) hstop hile hdup2
      have hih : (run_steps n
            (final_scene (prepared_scene s st)
              (final_pstate (render_branch st fs (c s.i) (current_path s st))
                (detect_changing (prepared_scene s st))))
            (final_pstate (render_branch st fs (c s.i) (current_path s st))
              (detect_changing (prepared_scene s st)))
            (render_branch st fs (c s.i) (current_path s st)).fs c).1 =
          ((sweepSim
            (final_scene (prepared_scene s st)
              (final_pstate (render_branch st fs (c s.i) (current_path s st))
                (detect_changing (prepared_scene s st))))
            (detect_changing (prepared_scene s st))
            (intRange (s.i + 1) s.frame_end)).1).map toAction :=
        ih _ _ _ c (current_path s st)
          (show n = (s.frame_end + 1 - (s.i + 1)).toNat by omega) hstop hc
          rfl rfl rfl (show s.i < s.i + 1 by omega) (Finset.mem_insert_self _ _)
      simp only [run_steps, hproc]
      simp only [sweepSim, List.map_cons]
      rw [decide_eq_false (fun h => hdup (hpre.trans h)), toAction_false]
      refine congrArg (List.cons FrameAction.rendered) ?_
      rw [hih, hpre]
      exact congrArg (List.map toAction) (sweepSim_fst_congr _ _ _ _ rfl rfl)

theorem intRangeAux_length (n : Nat) : ∀ a : Int, (intRangeAux n a).length = n := by
  induction n with
  | zero => intro a; rfl
  | succ n ih => intro a; simp [intRangeAux, ih (a + 1)]

theorem intRange_length (a b : Int) : (intRange a b).length = (b + 1 - a).toNat := by
  unfold intRange
  rw [intRangeAux_length]

theorem sweepSim_fst_length (frames : List Int) :
    ∀ (s : Scene) (prev : Finset String × Finset String),
      ((sweepSim s prev frames).1).length = frames.length := by
  induction frames with
  | nil => intro s prev; rfl
  | cons f rest ih =>
    intro s prev
    simp only [sweepSim, List.length_cons]
    rw [ih]

/-- A successful execute (configured output directory) in closed form. -/
theorem execute_some_eq (scene : Scene) (st : PState) (dir : String) :
    execute scene st (some dir) =
      ({ start_scene scene with
          file_format := if (formats (start_scene scene).file_format).isSome then
            (start_scene scene).file_format else "PNG" },
       { st with
          stop := false
          skip_list := (simulate_skip_frames (start_scene scene)).1.1
          total_skip := (simulate_skip_frames (start_scene scene)).1.2.1
          total_render := (simulate_skip_frames (start_scene scene)).1.2.2
          last_rendered_path := none
          ema_render_time := 0
          extension := formats (if (formats (start_scene scene).file_format).isSome then
            (start_scene scene).file_format else "PNG")
          frame_folder := some (dir ++ "/" ++ scene.name ++ "/" ++ "images") },
       ExecResult.finished) := by
  simp only [execute]
  rw [simulate_skip_frames_snd]
  rfl

/-- C1: plan against run consistency. For every scene, any carried over
state, any starting sink and any per frame costs without copy failures,
stepping the scheduler from a successful start through the whole range
produces exactly the action sequence recorded by the dry pass: a copy for
every planned skip entry and a render for every planned non skip entry. -/
theorem plan_run_consistency (scene : Scene) (st0 : PState) (fs0 : FS) (dir : String)
    (c : Int → StepCost) (hc : ∀ f, (c f).copy_fails = false)
    (s1 : Scene) (st1 : PState)
    (hex : execute scene st0 (some dir) = (s1, st1, ExecResult.finished)) :
    (run_steps st1.skip_list.length s1 st1 fs0 c).1 = st1.skip_list.map toAction := by
  rw [execute_some_eq] at hex
  simp only [Prod.mk.injEq] at hex
  obtain ⟨hA, hB, -⟩ := hex
  subst hA
  subst hB
  by_cases hr : scene.frame_start ≤ scene.frame_end
  · have hsk : (simulate_skip_frames (start_scene scene)).1.1
        = false :: (sweepSim (frame_set (start_scene scene) scene.frame_start)
            (detect_changing (frame_set (start_scene scene) scene.frame_start))
            (intRange (scene.frame_start + 1) scene.frame_end)).1 := by
      have hnl : ¬ (start_scene scene).frame_start > (start_scene scene).frame_end :=
        not_lt.2 hr
      simp only [simulate_skip_frames, hnl, if_false]
      rfl
    show (run_steps ((simulate_skip_frames (start_scene scene)).1.1).length _ _ fs0 c).1
      = ((simulate_skip_frames (start_scene scene)).1.1).map toAction
    rw [hsk]
    simp only [List.length_cons, List.map_cons, toAction_false]
    have hproc1 := process_render_of_last_none
      ({ start_scene scene with
          file_format := if (formats (start_scene scene).file_format).isSome then
            (start_scene scene).file_format else "PNG" })
      ({ st0 with
          stop := false
          skip_list := false :: (sweepSim (frame_set (start_scene scene) scene.frame_start)
            (detect_changing (frame_set (start_scene scene) scene.frame_start))
            (intRange (scene.frame_start + 1) scene.frame_end)).1
          total_skip := (simulate_skip_frames (start_scene scene)).1.2.1
          total_render := (simulate_skip_frames (start_scene scene)).1.2.2
          last_rendered_path := none
          ema_render_time := 0
          extension := formats (if (formats (start_scene scene).file_format).isSome then
            (start_scene scene).file_format else "PNG")
          frame_folder := some (dir ++ "/" ++ scene.name ++ "/" ++ "images") })
      fs0 (c (start_scene scene).i) rfl (show scene.frame_start ≤ scene.frame_end from hr) rfl
    simp only [run_steps, hproc1]
    refine congrArg (List.cons FrameAction.rendered) ?_
    refine (run_matches_plan _ _ _ _ c _ ?_ rfl hc rfl rfl rfl
      (show scene.frame_start < scene.frame_start + 1 by omega)
      (Finset.mem_insert_self _ _)).trans ?_
    · show ((sweepSim (frame_set (start_scene scene) scene.frame_start)
          (detect_changing (frame_set (start_scene scene) scene.frame_start))
          (intRange (scene.frame_start + 1) scene.frame_end)).1).length
        = (scene.frame_end + 1 - (scene.frame_start + 1)).toNat
      rw [sweepSim_fst_length, intRange_length]
    · exact congrArg (List.map toAction) (sweepSim_fst_congr _ _ _ _ rfl rfl)
  · have hempty : (simulate_skip_frames (start_scene scene)).1.1 = [] := by
      have hlt : (start_scene scene).frame_start > (start_scene scene).frame_end :=
        not_le.mp hr
      simp [simulate_skip_frames, hlt]
    show (run_steps ((simulate_skip_frames (start_scene scene)).1.1).length _ _ fs0 c).1
      = ((simulate_skip_frames (start_scene scene)).1.1).map toAction
    rw [hempty]
    rfl

def wCosts : Int → StepCost := fun _ => ⟨1, 0, 1, false⟩

/-- C1 witness: the consistency at a concrete one frame scene. -/
theorem plan_run_consistency_witness :
    (run_steps (execute (mkScene 1 1 1) init_process_state (some "o")).2.1.skip_list.length
        (execute (mkScene 1 1 1) init_process_state (some "o")).1
        (execute (mkScene 1 1 1) init_process_state (some "o")).2.1 ⟨∅⟩ wCosts).1
      = (execute (mkScene 1 1 1) init_process_state (some "o")).2.1.skip_list.map toAction :=
  plan_run_consistency (mkScene 1 1 1) init_process_state ⟨∅⟩ "o" wCosts (fun _ => rfl)
    (execute (mkScene 1 1 1) init_process_state (some "o")).1
    (execute (mkScene 1 1 1) init_process_state (some "o")).2.1 rfl

end SkipRender
